import Mathlib

/-!
Shallow embedding of the bookini backend core (intent classification,
purchase assembly, catalog resolution, recommendation engine) and proofs
of the specification's claims about it.

Sources embedded: `src/models/purchase.py`, `src/models/recommender.py`,
`src/models/searching.py`.

External effects (the language-model invocation, the Google Books HTTP
lookup, the Firestore document store) are modelled as explicit parameters:
the model's reply is a `ModelReply` value, the catalog is a lookup
function or an association list, and writes are recorded in the returned
value instead of performed.
-/

namespace Bookini

/-- JSON values, the result type of Python's `json.loads`. Numbers are
modelled as integers (the classifier prompt demands an integer quantity). -/
inductive Json where
  | null
  | bool (b : Bool)
  | num (n : Int)
  | str (s : String)
  | arr (elems : List Json)
  | obj (fields : List (String × Json))

/-- Outcome of the model invocation plus JSON-decoding step inside
`parse_user_request` (purchase.py lines 62-77): the `model.invoke` call can
raise, the returned text can fail `json.loads` (after optional markdown
fence stripping), or it parses to a JSON value. -/
inductive ModelReply where
  | invoke_failure
  | unparsable_text
  | parsed (j : Json)

/-- Embedding of `parse_user_request` (purchase.py lines 36-81): on a JSON decode error
or on any exception from the model invocation it returns the fallback
`{"quantity": 0, "topic": "Null"}`; otherwise it returns the parsed JSON
value unchanged, whatever its shape. -/
def parse_user_request : ModelReply → Json
  | .invoke_failure => Json.obj [("quantity", Json.num 0), ("topic", Json.str "Null")]
  | .unparsable_text => Json.obj [("quantity", Json.num 0), ("topic", Json.str "Null")]
  | .parsed j => j

/-- Python subscript `j[key]` with a string key: succeeds only on a dict
that has the key (`KeyError` otherwise); on any non-dict value it raises
`TypeError`. -/
def jsonGet (j : Json) (key : String) : Except String Json :=
  match j with
  | .obj fields =>
    match fields.lookup key with
    | some v => Except.ok v
    | none => Except.error "KeyError"
  | _ => Except.error "TypeError"

/-- Python comparison `v > 0`: defined for numbers and for `bool` (a
subtype of `int` in Python, `True > 0` holds); raises `TypeError` on any
other JSON value. -/
def jsonGtZero (j : Json) : Except String Bool :=
  match j with
  | .num n => Except.ok (decide (0 < n))
  | .bool b => Except.ok b
  | _ => Except.error "TypeError"

/-- Using a JSON value as a Python integer (for `range(min(quantity, ...))`):
numbers and bools are integers, everything else raises `TypeError`. -/
def jsonAsInt (j : Json) : Except String Int :=
  match j with
  | .num n => Except.ok n
  | .bool b => Except.ok (if b then 1 else 0)
  | _ => Except.error "TypeError"

/-- Python's `topic != "Null"` is a string comparison: it is false exactly
when the value is the string `"Null"`; any non-string JSON value compares
unequal without raising. This is its negation. -/
def is_null_topic : Json → Bool
  | .str s => s = "Null"
  | _ => false

/-- Best-effort rendering of a JSON value into message text, standing in
for Python's `str()` inside the f-string of the "couldn't find" message
(only the `str` case ever arises from the classifier contract). -/
def json_to_text : Json → String
  | .null => "None"
  | .bool b => if b then "True" else "False"
  | .num n => toString n
  | .str s => s
  | .arr _ => "[...]"
  | .obj _ => "{...}"

/-- A book record as produced by `fetch_book_details`: the fields that
`handle_user_request` reads. `price` is optional to mirror
`book.get("price", "N/A")` (purchase.py line 192). -/
structure Book where
  title : String
  author : String
  price : Option String
deriving DecidableEq, Repr

/-- The user document read from Firestore (purchase.py lines 174-196);
every field is looked up with `.get(key, default)`. -/
structure UserData where
  owned_books : List String
  preferred_format : Option String
  default_payment : Option String
  default_address : Option String
deriving DecidableEq, Repr

/-- One entry of the `purchase_details` list (purchase.py lines 188-196). -/
structure PurchaseDetail where
  user_id : String
  book_title : String
  author : String
  price : String
  format : String
  payment_method : String
  shipping_address : String
deriving DecidableEq, Repr

/-- The dict returned by `handle_user_request`. The source uses the key
`"books"` in the conversational and not-found branches and `"found_books"`
in the purchase branch; both embed into `found_books` here.
`requested_quantity`/`requested_topic` are present only on the purchase
branch. `catalog_calls` records how many times `search_books` (the
catalog resolver) was invoked during the request. -/
structure HandleResult where
  message : String
  found_books : List Book
  purchase_details : List PurchaseDetail
  requested_quantity : Option Int
  requested_topic : Option Json
  catalog_calls : Nat

/-- Purchase-detail construction for one book (purchase.py lines 188-196). -/
def mk_purchase_detail (user_id : String) (user_data : UserData) (book : Book) :
    PurchaseDetail :=
  { user_id := user_id
    book_title := book.title
    author := book.author
    price := book.price.getD "N/A"
    format := user_data.preferred_format.getD "Paperback"
    payment_method := user_data.default_payment.getD "Credit Card"
    shipping_address := user_data.default_address.getD "" }

/-- The conversational / not-a-purchase result (purchase.py lines 206-210):
`{"message": response, "books": [], "purchase_details": []}` where the
message is the model's free-form reply; no catalog call happens. -/
def conversational_result (conv_reply : String) : HandleResult :=
  { message := conv_reply
    found_books := []
    purchase_details := []
    requested_quantity := none
    requested_topic := none
    catalog_calls := 0 }

/-- The purchase branch of `handle_user_request` (purchase.py lines 162-205),
given the already-extracted integer quantity and the candidate list that
`search_books(topic)` returned. Firestore's user document read is the
`user_data` parameter. -/
def purchase_branch (user_id : String) (quantity : Int) (topic : Json)
    (found_books : List Book) (user_data : UserData) : HandleResult :=
  if found_books = [] then
    { message := "I couldn't find any books about '" ++ json_to_text topic ++
        "'. Please try a different topic."
      found_books := []
      purchase_details := []
      requested_quantity := none
      requested_topic := none
      catalog_calls := 1 }
  else
    let filtered_books :=
      found_books.filter (fun book => ! user_data.owned_books.contains book.title)
    let purchase_details :=
      (filtered_books.take (min quantity.toNat filtered_books.length)).map
        (mk_purchase_detail user_id user_data)
    { message := "You can now go to the basket to confirm payment."
      found_books := filtered_books.take quantity.toNat
      purchase_details := purchase_details
      requested_quantity := some quantity
      requested_topic := some topic
      catalog_calls := 1 }

/-- Embedding of `handle_user_request` (purchase.py lines 154-210). The model reply
feeding `parse_user_request` and the candidate list that `search_books`
would return for the topic are parameters; `conv_reply` is the model's
free-form answer used on the conversational branch. A Python exception
(`KeyError`/`TypeError` from the unguarded subscripts and comparison)
is `Except.error`. The guard mirrors the short-circuit evaluation of
`parsed_request["quantity"] > 0 and parsed_request["topic"] != "Null"`. -/
def handle_user_request (user_id : String) (model_reply : ModelReply)
    (search_results : List Book) (user_data : UserData) (conv_reply : String) :
    Except String HandleResult :=
  match jsonGet (parse_user_request model_reply) "quantity" with
  | .error e => Except.error e
  | .ok qv =>
    match jsonGtZero qv with
    | .error e => Except.error e
    | .ok false => Except.ok (conversational_result conv_reply)
    | .ok true =>
      match jsonGet (parse_user_request model_reply) "topic" with
      | .error e => Except.error e
      | .ok tv =>
        if is_null_topic tv then Except.ok (conversational_result conv_reply)
        else
          match jsonAsInt qv with
          | .error e => Except.error e
          | .ok quantity =>
            Except.ok (purchase_branch user_id quantity tv search_results user_data)

/-! ### Python string primitives

Python strings are embedded as Lean `String`s; `str.split(sep)` and
`str.strip()` are re-implemented structurally over the character list so
concrete instances compute inside the kernel. -/

/-- ASCII whitespace as recognised by Python's `str.strip()`
(space, tab, newline, carriage return, vertical tab, form feed). -/
def isPySpace (ch : Char) : Bool :=
  ch = ' ' ∨ ch = '\t' ∨ ch = '\n' ∨ ch = '\r' ∨ ch = '\x0b' ∨ ch = '\x0c'

/-- Python `s.split(sep)` for a one-character separator, on character
lists: keeps empty fields, and `"".split(sep) == [""]`. -/
def splitOnChar (sep : Char) : List Char → List (List Char)
  | [] => [[]]
  | ch :: rest =>
    match splitOnChar sep rest with
    | [] => [[ch]]
    | cur :: done =>
      if ch = sep then [] :: cur :: done else (ch :: cur) :: done

/-- Python `s.split(sep)` on strings. -/
def pySplit (sep : Char) (s : String) : List String :=
  (splitOnChar sep s.toList).map (fun cs => ⟨cs⟩)

/-- Leading-whitespace removal (`str.lstrip()`). -/
def lstripChars (l : List Char) : List Char :=
  l.dropWhile isPySpace

/-- Trailing-whitespace removal (`str.rstrip()`). -/
def rstripChars (l : List Char) : List Char :=
  (l.reverse.dropWhile isPySpace).reverse

/-- Python `str.strip()`: removes whitespace from both ends. -/
def pyStrip (s : String) : String :=
  ⟨lstripChars (rstripChars s.toList)⟩

/-! ### Catalog client price normalization -/

/-- The `listPrice` sub-object of a Google Books `saleInfo`: both fields
are read with `.get`, so each may be absent. -/
structure ListPrice where
  amount : Option String
  currencyCode : Option String
deriving DecidableEq, Repr

/-- A `saleInfo` object: the code only tests `"listPrice" in sale_info`. -/
structure SaleInfo where
  listPrice : Option ListPrice
deriving DecidableEq, Repr

/-- Embedding of `get_price_info` (purchase.py lines 146-152): with a list price
present, `f"{amount} {currency}".strip()` where `amount` defaults to
`"N/A"` and `currency` to `""`; otherwise the `"N/A"` sentinel. -/
def get_price_info (sale_info : SaleInfo) : String :=
  match sale_info.listPrice with
  | some lp => pyStrip ((lp.amount.getD "N/A") ++ " " ++ (lp.currencyCode.getD ""))
  | none => "N/A"

/-! ### Catalog resolver (`search_books`, purchase.py lines 83-107) -/

/-- The non-empty stripped fields of one markdown-table row:
`[part.strip() for part in line.split('|') if part.strip()]`. -/
def row_fields (line : String) : List String :=
  (pySplit '|' line).filterMap (fun part =>
    let s := pyStrip part
    if s = "" then none else some s)

/-- Embedding of `search_books` (purchase.py lines 96-107), applied to the model's
table text, with the Google Books lookup `fetch_book_details` given as a
`catalog` oracle (`none` models both a failed request and a no-items
response). The first two lines (header and separator) are skipped; a row
contributes only if it has at least two non-empty fields and its title
resolves in the catalog. -/
def search_books (catalog : String → Option Book) (table_text : String) :
    List Book :=
  let lines := pySplit '\n' table_text
  if 3 ≤ lines.length then
    (lines.drop 2).filterMap (fun line =>
      match row_fields line with
      | title :: _ :: _ => catalog title
      | _ => none)
  else []

/-! ### Recommendation engine (`src/models/recommender.py`)

Firestore's `books` collection is an association list from document id to
book document; `users/{id}` is a `Profile`. Python's `set` unions are
embedded as `List.dedup` (the claims depend only on distinctness, not on
set iteration order). -/

/-- A document of the `books` collection: the recommender reads only the
`Category` array (plus the id it attaches). -/
structure BookDoc where
  category : List String
deriving DecidableEq, Repr

/-- The user profile extracted by `get_user_profile` (recommender.py
lines 20-35), each field defaulted to `[]`. -/
structure Profile where
  preferences : List String
  wishlist : List String
  owned_books : List String
deriving DecidableEq, Repr

/-- Embedding of `get_book_categories` (recommender.py lines 37-54): union of the
`Category` arrays of the given documents, dropping falsy and `"N/A"`
entries; a missing document contributes nothing. -/
def get_book_categories (books_collection : List (String × BookDoc))
    (book_ids : List String) : List String :=
  (book_ids.flatMap (fun book_id =>
    match books_collection.lookup book_id with
    | some doc => doc.category.filter (fun c => !(c == "" || c == "N/A"))
    | none => [])).dedup

/-- Embedding of `search_books_with_categories` (recommender.py lines 56-88), success
path: per-category `array-contains` queries whose matching ids are
unioned with set semantics. An empty category list short-circuits to `[]`
before any query. -/
def search_books_with_categories (books_collection : List (String × BookDoc))
    (categories : List String) : List String :=
  if categories = [] then []
  else
    ((books_collection.filter (fun b =>
        b.2.category.any (fun c => categories.contains c))).map
      (fun b => b.1)).dedup

/-- Embedding of `get_book_details` (recommender.py lines 90-102): fetch each id's
document, skip missing ones, and attach the id (`book_data["id"] = book_id`). -/
def get_book_details (books_collection : List (String × BookDoc))
    (book_ids : List String) : List (String × BookDoc) :=
  book_ids.filterMap (fun book_id =>
    (books_collection.lookup book_id).map (fun doc => (book_id, doc)))

/-- The derived category union of `recommend_books` (recommender.py lines
109-113): wishlist-book categories, stored preferences, and owned-book
categories. -/
def all_categories (books_collection : List (String × BookDoc))
    (profile : Profile) : List String :=
  (get_book_categories books_collection profile.wishlist ++
    profile.preferences ++
    get_book_categories books_collection profile.owned_books).dedup

/-- Result of one `recommend_books` call: the returned list plus the log
of per-category catalog queries issued by `search_books_with_categories`
during the call (one query per category; empty when the search step never
runs). -/
structure RecommendTrace where
  result : List (String × BookDoc)
  category_queries : List String

/-- Embedding of `recommend_books` (recommender.py lines 104-133): derive the category
union; on an empty union return `[]` before any catalog query; otherwise
query by category, exclude owned and wishlisted ids, fetch details and
truncate to 10. -/
def recommend_books (books_collection : List (String × BookDoc))
    (profile : Profile) : RecommendTrace :=
  let cats := all_categories books_collection profile
  if cats = [] then { result := [], category_queries := [] }
  else
    let recommended_book_ids := search_books_with_categories books_collection cats
    let filtered_book_ids := recommended_book_ids.filter (fun book_id =>
      ! profile.owned_books.contains book_id && ! profile.wishlist.contains book_id)
    { result := (get_book_details books_collection filtered_book_ids).take 10
      category_queries := cats }

/-- Outcome of `main_recommender` for a single user (recommender.py lines
139-149): the returned recommendations, and the value written to the
user document's `recommendations` field — `none` when no
`update` call was made (the `if recommendations:` guard failed). -/
structure MainRecommenderOutcome where
  result : List (String × BookDoc)
  wrote : Option (List (String × BookDoc))
deriving DecidableEq, Repr

/-- Embedding of `main_recommender` for a specific user (recommender.py lines 139-149):
computes the recommendations and persists them only when the list is
non-empty (Python truthiness of `if recommendations:`). -/
def main_recommender (books_collection : List (String × BookDoc))
    (profile : Profile) : MainRecommenderOutcome :=
  let recommendations := (recommend_books books_collection profile).result
  if recommendations = [] then { result := recommendations, wrote := none }
  else { result := recommendations, wrote := some recommendations }

/-! ### Helper lemmas -/

/-- Every purchase detail built by the purchase branch comes from a book
that survived the owned-books filter. -/
theorem purchase_branch_title_not_owned (user_id : String) (quantity : Int)
    (topic : Json) (found_books : List Book) (user_data : UserData)
    (d : PurchaseDetail)
    (hd : d ∈ (purchase_branch user_id quantity topic found_books user_data).purchase_details) :
    d.book_title ∉ user_data.owned_books := by
  unfold purchase_branch at hd
  by_cases hfb : found_books = []
  · simp [hfb] at hd
  · simp only [if_neg hfb, List.mem_map] at hd
    obtain ⟨book, hbook, rfl⟩ := hd
    have hmem := List.mem_of_mem_take hbook
    rw [List.mem_filter] at hmem
    have hc : user_data.owned_books.contains book.title = false := by
      simpa using hmem.2
    intro habs
    rw [← List.elem_iff] at habs
    simp only [mk_purchase_detail] at habs
    exact absurd habs (by simp [List.contains] at hc; simp [hc])

/-- The purchase branch produces exactly
`min quantity (length of the owned-filtered candidates)` offers. -/
theorem purchase_branch_details_length (user_id : String) (quantity : Int)
    (topic : Json) (found_books : List Book) (user_data : UserData) :
    (purchase_branch user_id quantity topic found_books user_data).purchase_details.length =
      min quantity.toNat
        ((found_books.filter
          (fun book => ! user_data.owned_books.contains book.title)).length) := by
  unfold purchase_branch
  by_cases hfb : found_books = []
  · simp [hfb]
  · simp [if_neg hfb, List.length_take, Nat.min_assoc]

/-- Evaluating `handle_user_request` on a well-formed purchase intent
`{"quantity": q, "topic": t}` with `q > 0` and `t ≠ "Null"` reaches the
purchase branch. -/
theorem handle_purchase_intent (user_id : String) (q : Int) (topic : String)
    (search_results : List Book) (user_data : UserData) (conv_reply : String)
    (hq : 0 < q) (ht : topic ≠ "Null") :
    handle_user_request user_id
        (ModelReply.parsed (Json.obj [("quantity", Json.num q), ("topic", Json.str topic)]))
        search_results user_data conv_reply =
      Except.ok (purchase_branch user_id q (Json.str topic) search_results user_data) := by
  have hd : decide (0 < q) = true := decide_eq_true hq
  have hnt : is_null_topic (Json.str topic) = false := by
    simp [is_null_topic, ht]
  simp only [handle_user_request, parse_user_request, jsonGet, List.lookup, jsonGtZero,
    jsonAsInt, hd, hnt]
  simp [hd, hnt]

/-- Inversion for `handle_user_request`: a successful call returns either
the conversational result or a purchase-branch result. -/
theorem handle_ok_cases (user_id : String) (model_reply : ModelReply)
    (search_results : List Book) (user_data : UserData) (conv_reply : String)
    (r : HandleResult)
    (h : handle_user_request user_id model_reply search_results user_data conv_reply =
      Except.ok r) :
    r = conversational_result conv_reply ∨
      ∃ q tv, r = purchase_branch user_id q tv search_results user_data := by
  unfold handle_user_request at h
  split at h
  · exact absurd h (by simp)
  · split at h
    · exact absurd h (by simp)
    · exact Or.inl (Except.ok.inj h).symm
    · split at h
      · exact absurd h (by simp)
      · split at h
        · exact Or.inl (Except.ok.inj h).symm
        · split at h
          · exact absurd h (by simp)
          · exact Or.inr ⟨_, _, (Except.ok.inj h).symm⟩

/-! ### Claims -/

/-- C5: for every intent with quantity 0, `handle_user_request` takes the
conversational branch: `foundBooks` and `purchaseDetails` are both empty
and no catalog resolution (`search_books`) is performed during the
request. The topic value is arbitrary (with quantity 0 it is never read,
because of the short-circuit `and`). -/
theorem quantity_zero_gives_empty_conversational_result (user_id : String)
    (topic : Json) (search_results : List Book) (user_data : UserData)
    (conv_reply : String) :
    handle_user_request user_id
        (ModelReply.parsed (Json.obj [("quantity", Json.num 0), ("topic", topic)]))
        search_results user_data conv_reply =
      Except.ok (conversational_result conv_reply) ∧
    (conversational_result conv_reply).found_books = [] ∧
    (conversational_result conv_reply).purchase_details = [] ∧
    (conversational_result conv_reply).catalog_calls = 0 := by
  refine ⟨?_, rfl, rfl, rfl⟩
  rfl

/-- C1: for every user profile and every candidate list returned by the
resolver, no purchase detail produced by `handle_user_request` references
a title present in the profile's `owned_books`. -/
theorem purchase_details_never_owned (user_id : String) (model_reply : ModelReply)
    (search_results : List Book) (user_data : UserData) (conv_reply : String)
    (r : HandleResult)
    (h : handle_user_request user_id model_reply search_results user_data conv_reply =
      Except.ok r)
    (d : PurchaseDetail) (hd : d ∈ r.purchase_details) :
    d.book_title ∉ user_data.owned_books := by
  rcases handle_ok_cases user_id model_reply search_results user_data conv_reply r h with
    hc | ⟨q, tv, hp⟩
  · rw [hc] at hd
    simp [conversational_result] at hd
  · rw [hp] at hd
    exact purchase_branch_title_not_owned user_id q tv search_results user_data d hd

/-- Witness for C1 at a concrete input: quantity 2 for the topic
"dragons", two candidates of which one is owned. -/
theorem purchase_details_never_owned_witness :
    ("Dune" : String) ∉ ["Hobbit"] := by
  refine purchase_details_never_owned "u1"
    (ModelReply.parsed (Json.obj [("quantity", Json.num 2), ("topic", Json.str "dragons")]))
    [{ title := "Hobbit", author := "T", price := none },
     { title := "Dune", author := "H", price := some "9 USD" }]
    { owned_books := ["Hobbit"], preferred_format := none, default_payment := none,
      default_address := none }
    "hi"
    (purchase_branch "u1" 2 (Json.str "dragons")
      [{ title := "Hobbit", author := "T", price := none },
       { title := "Dune", author := "H", price := some "9 USD" }]
      { owned_books := ["Hobbit"], preferred_format := none, default_payment := none,
        default_address := none })
    rfl
    { user_id := "u1", book_title := "Dune", author := "H", price := "9 USD",
      format := "Paperback", payment_method := "Credit Card", shipping_address := "" }
    ?_
  decide

/-- C2: for every requested quantity `q > 0` (with a non-sentinel topic)
and every candidate list, `handle_user_request` succeeds and the number of
purchase offers equals `min q (number of candidates left after the
owned-books filter)`. -/
theorem purchase_details_count_is_min (user_id : String) (q : Int) (topic : String)
    (search_results : List Book) (user_data : UserData) (conv_reply : String)
    (hq : 0 < q) (ht : topic ≠ "Null") :
    ∃ r, handle_user_request user_id
        (ModelReply.parsed (Json.obj [("quantity", Json.num q), ("topic", Json.str topic)]))
        search_results user_data conv_reply = Except.ok r ∧
      r.purchase_details.length =
        min q.toNat
          ((search_results.filter
            (fun book => ! user_data.owned_books.contains book.title)).length) :=
  ⟨purchase_branch user_id q (Json.str topic) search_results user_data,
    handle_purchase_intent user_id q topic search_results user_data conv_reply hq ht,
    purchase_branch_details_length user_id q (Json.str topic) search_results user_data⟩

/-- Witness for C2 at a concrete input: quantity 3, two unowned
candidates, so exactly `min 3 2 = 2` offers. -/
theorem purchase_details_count_is_min_witness :
    ∃ r, handle_user_request "u1"
        (ModelReply.parsed (Json.obj [("quantity", Json.num 3), ("topic", Json.str "dragons")]))
        [{ title := "A", author := "a", price := none },
         { title := "B", author := "b", price := none }]
        { owned_books := [], preferred_format := none, default_payment := none,
          default_address := none }
        "hi" = Except.ok r ∧
      r.purchase_details.length =
        min (Int.toNat 3)
          ((([{ title := "A", author := "a", price := none },
              { title := "B", author := "b", price := none }] : List Book).filter
            (fun book => ! ([] : List String).contains book.title)).length) :=
  purchase_details_count_is_min "u1" 3 "dragons"
    [{ title := "A", author := "a", price := none },
     { title := "B", author := "b", price := none }]
    { owned_books := [], preferred_format := none, default_payment := none,
      default_address := none }
    "hi" (by decide) (by decide)

/-- C10: `parse_user_request` returns a structurally valid JSON reply
unchanged, whatever its shape, and `handle_user_request` then raises on
the unguarded subscripts: a JSON array reaches
`parsed_request["quantity"]` and fails with `TypeError`, an object
without a `"quantity"` key fails with `KeyError`; with the expected
shape (numeric `"quantity"`, a `"topic"` key) the request succeeds. -/
theorem handle_raises_on_malformed_parse_result :
    parse_user_request (ModelReply.parsed (Json.arr [])) = Json.arr [] ∧
    handle_user_request "u1" (ModelReply.parsed (Json.arr [])) []
        { owned_books := [], preferred_format := none, default_payment := none,
          default_address := none } "hi" = Except.error "TypeError" ∧
    parse_user_request (ModelReply.parsed (Json.obj [("topic", Json.str "dragons")])) =
      Json.obj [("topic", Json.str "dragons")] ∧
    handle_user_request "u1" (ModelReply.parsed (Json.obj [("topic", Json.str "dragons")]))
        []
        { owned_books := [], preferred_format := none, default_payment := none,
          default_address := none } "hi" = Except.error "KeyError" ∧
    ∃ r, handle_user_request "u1"
        (ModelReply.parsed
          (Json.obj [("quantity", Json.num 1), ("topic", Json.str "dragons")]))
        []
        { owned_books := [], preferred_format := none, default_payment := none,
          default_address := none } "hi" = Except.ok r :=
  ⟨rfl, rfl, rfl, rfl,
    ⟨purchase_branch "u1" 1 (Json.str "dragons") []
      { owned_books := [], preferred_format := none, default_payment := none,
        default_address := none }, rfl⟩⟩

/-- Counterexample to C4 as stated: on a model reply that fails JSON
parsing, the classifier's fallback intent has topic `"Null"`, not the
claimed `{quantity: 0, topic: "none"}`. -/
theorem classifier_fallback_is_Null_not_none :
    parse_user_request ModelReply.unparsable_text =
      Json.obj [("quantity", Json.num 0), ("topic", Json.str "Null")] ∧
    parse_user_request ModelReply.unparsable_text ≠
      Json.obj [("quantity", Json.num 0), ("topic", Json.str "none")] :=
  ⟨rfl, by simp [parse_user_request]⟩

/-- C4 (amended): on a JSON parse failure of the model response, and on
any model-invocation failure, `parse_user_request` returns the sentinel
not-a-purchase intent `{"quantity": 0, "topic": "Null"}` instead of
propagating an error. -/
theorem classifier_fallback_sentinel (model_reply : ModelReply)
    (h : model_reply = ModelReply.invoke_failure ∨
      model_reply = ModelReply.unparsable_text) :
    parse_user_request model_reply =
      Json.obj [("quantity", Json.num 0), ("topic", Json.str "Null")] := by
  rcases h with rfl | rfl <;> rfl

/-- Witness for C4 (amended) at the invocation-failure input. -/
theorem classifier_fallback_sentinel_witness :
    parse_user_request ModelReply.invoke_failure =
      Json.obj [("quantity", Json.num 0), ("topic", Json.str "Null")] :=
  classifier_fallback_sentinel ModelReply.invoke_failure (Or.inl rfl)

/-- A string is whitespace-clean when stripping either end changes
nothing (no leading and no trailing whitespace). -/
def ws_clean (s : String) : Prop :=
  lstripChars s.toList = s.toList ∧ rstripChars s.toList = s.toList

/-- The function `rstripChars` is Mathlib's `List.rdropWhile` on `isPySpace`. -/
theorem rstripChars_eq_rdropWhile (l : List Char) :
    rstripChars l = List.rdropWhile isPySpace l := rfl

/-- Dropping from a list whose head is not dropped leaves any extension
untouched. -/
theorem dropWhile_cons_append_of_neg (p : Char → Bool) (x : Char) (xs r : List Char)
    (hx : p x = false) :
    List.dropWhile p ((x :: xs) ++ r) = (x :: xs) ++ r := by
  simp [List.dropWhile_cons, hx]

/-- If `dropWhile` leaves a cons unchanged, its head fails the predicate. -/
theorem head_fails_of_dropWhile_eq_self (p : Char → Bool) (x : Char) (xs : List Char)
    (h : List.dropWhile p (x :: xs) = x :: xs) : p x = false := by
  by_contra hpx
  rw [Bool.not_eq_false] at hpx
  rw [List.dropWhile_cons, if_pos hpx] at h
  have hlen := congrArg List.length h
  have hle : (List.dropWhile p xs).length ≤ xs.length :=
    (List.dropWhile_sublist p).length_le
  simp only [List.length_cons] at hlen
  omega

/-- Stripping `amount ++ " "` (empty currency) is stripping `amount`. -/
theorem pyStrip_append_space (a : String) (h : ws_clean a) :
    pyStrip (a ++ " ") = a := by
  have hdata : (a ++ " ").toList = a.toList ++ [' '] := rfl
  apply String.ext
  show lstripChars (rstripChars (a ++ " ").toList) = a.toList
  rw [hdata, rstripChars_eq_rdropWhile,
    List.rdropWhile_concat_pos isPySpace a.toList ' ' (by decide),
    ← rstripChars_eq_rdropWhile, h.2, h.1]

/-- Stripping `amount ++ " " ++ currency` with clean non-empty fields is
the identity. -/
theorem pyStrip_amount_currency (a c : String) (ha : ws_clean a) (hane : a ≠ "")
    (hc : ws_clean c) (hcne : c ≠ "") :
    pyStrip (a ++ " " ++ c) = a ++ " " ++ c := by
  have hdata : (a ++ " " ++ c).toList = a.toList ++ ' ' :: c.toList := by
    show (a.data ++ [' ']) ++ c.data = a.data ++ ' ' :: c.data
    rw [List.append_assoc]
    rfl
  obtain ⟨x, xs, hax⟩ : ∃ x xs, a.toList = x :: xs := by
    cases hal : a.toList with
    | nil => exact absurd (String.ext hal) hane
    | cons x xs => exact ⟨x, xs, rfl⟩
  obtain ⟨y, ys, hcy⟩ : ∃ y ys, c.toList.reverse = y :: ys := by
    cases hcl : c.toList.reverse with
    | nil =>
      rw [List.reverse_eq_nil_iff] at hcl
      exact absurd (String.ext hcl) hcne
    | cons y ys => exact ⟨y, ys, rfl⟩
  have hy : isPySpace y = false := by
    have h2 := hc.2
    unfold rstripChars at h2
    rw [hcy] at h2
    have hself : List.dropWhile isPySpace (y :: ys) = y :: ys := by
      have h3 := congrArg List.reverse h2
      rw [List.reverse_reverse] at h3
      rw [h3, hcy]
    exact head_fails_of_dropWhile_eq_self _ _ _ hself
  have hx : isPySpace x = false := by
    have h1 := ha.1
    unfold lstripChars at h1
    rw [hax] at h1
    exact head_fails_of_dropWhile_eq_self _ _ _ h1
  apply String.ext
  show lstripChars (rstripChars (a ++ " " ++ c).toList) = (a ++ " " ++ c).toList
  rw [hdata]
  have hr : rstripChars (a.toList ++ ' ' :: c.toList) = a.toList ++ ' ' :: c.toList := by
    unfold rstripChars
    rw [show (a.toList ++ ' ' :: c.toList).reverse =
        (y :: ys) ++ (' ' :: a.toList.reverse) from by rw [← hcy]; simp]
    rw [dropWhile_cons_append_of_neg isPySpace y ys _ hy]
    rw [show ((y :: ys) ++ (' ' :: a.toList.reverse)).reverse =
        a.toList ++ ' ' :: c.toList from by rw [← hcy]; simp]
  rw [hr]
  unfold lstripChars
  rw [hax]
  exact dropWhile_cons_append_of_neg isPySpace x xs _ hx

/-- C9: for every catalog sale record, price normalization returns the
formatted string `"<amount> <currency-code>"` when a list price is
present — collapsing to the bare amount (trailing whitespace stripped)
when the currency code is empty — and the `"N/A"` unavailable sentinel
when no list price is present. Formatting facts are stated for fields
without surrounding whitespace, which is what strip-identity means. -/
theorem price_normalization (sale_info : SaleInfo) :
    (sale_info.listPrice = none → get_price_info sale_info = "N/A") ∧
    (∀ lp, sale_info.listPrice = some lp →
      (ws_clean (lp.amount.getD "N/A") → lp.amount.getD "N/A" ≠ "" →
        ws_clean (lp.currencyCode.getD "") → lp.currencyCode.getD "" ≠ "" →
        get_price_info sale_info =
          lp.amount.getD "N/A" ++ " " ++ lp.currencyCode.getD "") ∧
      (ws_clean (lp.amount.getD "N/A") → lp.currencyCode.getD "" = "" →
        get_price_info sale_info = lp.amount.getD "N/A")) := by
  constructor
  · intro h
    unfold get_price_info
    rw [h]
  · intro lp hlp
    constructor
    · intro ha hane hc hcne
      unfold get_price_info
      rw [hlp]
      show pyStrip (lp.amount.getD "N/A" ++ " " ++ lp.currencyCode.getD "") = _
      exact pyStrip_amount_currency _ _ ha hane hc hcne
    · intro ha hc
      unfold get_price_info
      rw [hlp]
      show pyStrip (lp.amount.getD "N/A" ++ " " ++ lp.currencyCode.getD "") = _
      rw [hc, String.append_empty]
      exact pyStrip_append_space _ ha

/-- Witness for C9 at concrete sale records: a priced record with
currency `"USD"`, one with an empty currency, and one with no list
price. -/
theorem price_normalization_witness :
    get_price_info { listPrice := some { amount := some "12.5", currencyCode := some "USD" } } =
      "12.5 USD" ∧
    get_price_info { listPrice := some { amount := some "7", currencyCode := some "" } } =
      "7" ∧
    get_price_info { listPrice := none } = "N/A" := by
  refine ⟨?_, ?_, ?_⟩
  · exact ((price_normalization
      { listPrice := some { amount := some "12.5", currencyCode := some "USD" } }).2
      { amount := some "12.5", currencyCode := some "USD" } rfl).1
      (by constructor <;> decide) (by decide) (by constructor <;> decide) (by decide)
  · exact ((price_normalization
      { listPrice := some { amount := some "7", currencyCode := some "" } }).2
      { amount := some "7", currencyCode := some "" } rfl).2
      (by constructor <;> decide) (by decide)
  · exact (price_normalization { listPrice := none }).1 rfl

/-- Modelled from the spec's words (refinement target for the resolver
parsing claim): the data rows of the model's table are the lines after
the first two (header and separator); with fewer than three lines there
are none. -/
def spec_data_rows (table_text : String) : List String :=
  let lines := pySplit '\n' table_text
  if 3 ≤ lines.length then lines.drop 2 else []

/-- Modelled from the spec's words: a data row is accepted only if
splitting on the column delimiter and trimming yields at least two
non-empty fields. -/
def spec_accepted_rows (table_text : String) : List String :=
  (spec_data_rows table_text).filter (fun line => 2 ≤ (row_fields line).length)

/-- The title column of an accepted row (its first non-empty field). -/
def spec_row_title (line : String) : String :=
  (row_fields line).headD ""

/-- The source's row loop equals the spec-side pipeline: accepted rows in
original order, enriched through the catalog, with lookup misses
dropped. -/
theorem filterMap_rows_eq_accepted (catalog : String → Option Book)
    (rows : List String) :
    rows.filterMap (fun line =>
      match row_fields line with
      | title :: _ :: _ => catalog title
      | _ => none) =
    (rows.filter (fun line => 2 ≤ (row_fields line).length)).filterMap
      (fun line => catalog (spec_row_title line)) := by
  induction rows with
  | nil => rfl
  | cons a l ih =>
    simp only [List.filterMap_cons, List.filter_cons]
    cases hra : row_fields a with
    | nil => simpa [hra, spec_row_title] using ih
    | cons t rest =>
      cases rest with
      | nil => simpa [hra, spec_row_title] using ih
      | cons u rest2 =>
        have hacc : 2 ≤ (row_fields a).length := by
          rw [hra]
          simp only [List.length_cons]
          omega
        cases hct : catalog t <;>
          simp [hra, hct, spec_row_title, hacc, ih]

/-- Counterexample to C6 as stated: the parser enforces no length-5
bound. A table whose model output has six well-formed data rows, all of
which resolve in the catalog, yields six candidates. -/
theorem search_books_can_exceed_five :
    ¬ ((search_books (fun title => some { title := title, author := "", price := none })
        "Title | Author\n---|---\n|A1|B1|\n|A2|B2|\n|A3|B3|\n|A4|B4|\n|A5|B5|\n|A6|B6|").length
      ≤ 5) := by decide

/-- C6 (amended): for every model table text, `search_books` equals the
spec-side pipeline — the first two lines are discarded, a remaining row
is kept only if splitting on the delimiter and trimming yields at least
two non-empty fields, kept rows with no catalog match are dropped
without reordering the rest — and its length is bounded by the number of
data rows (not by 5: the prompt requests 5 rows but the parser does not
enforce that bound). -/
theorem search_books_matches_spec_pipeline (catalog : String → Option Book)
    (table_text : String) :
    search_books catalog table_text =
      (spec_accepted_rows table_text).filterMap
        (fun line => catalog (spec_row_title line)) ∧
    (search_books catalog table_text).length ≤ (spec_data_rows table_text).length := by
  have heq : search_books catalog table_text =
      (spec_data_rows table_text).filterMap (fun line =>
        match row_fields line with
        | title :: _ :: _ => catalog title
        | _ => none) := by
    unfold search_books spec_data_rows
    by_cases h3 : 3 ≤ (pySplit '\n' table_text).length
    · simp [h3]
    · simp [h3]
  constructor
  · rw [heq, spec_accepted_rows]
    exact filterMap_rows_eq_accepted catalog (spec_data_rows table_text)
  · rw [heq]
    exact List.length_filterMap_le _ _

/-- A `contains = false` result means non-membership (lawful `BEq` on `String`). -/
theorem not_mem_of_contains_eq_false {l : List String} {a : String}
    (h : l.contains a = false) : a ∉ l := by
  intro hmem
  have h2 : l.contains a = true := List.elem_iff.mpr hmem
  rw [h2] at h
  cases h

/-- The ids attached by `get_book_details` are the input ids that resolve
in the collection, in order. -/
theorem get_book_details_map_fst (books_collection : List (String × BookDoc))
    (book_ids : List String) :
    (get_book_details books_collection book_ids).map Prod.fst =
      book_ids.filter (fun book_id =>
        (books_collection.lookup book_id).isSome) := by
  induction book_ids with
  | nil => rfl
  | cons a l ih =>
    unfold get_book_details at ih ⊢
    cases hla : books_collection.lookup a <;>
      simp [List.filterMap_cons, List.filter_cons, hla, ih]

/-- Every entry of `get_book_details` carries one of the requested ids. -/
theorem get_book_details_mem_fst (books_collection : List (String × BookDoc))
    (book_ids : List String) (p : String × BookDoc)
    (hp : p ∈ get_book_details books_collection book_ids) : p.1 ∈ book_ids := by
  have : p.1 ∈ (get_book_details books_collection book_ids).map Prod.fst :=
    List.mem_map_of_mem Prod.fst hp
  rw [get_book_details_map_fst] at this
  exact (List.mem_filter.mp this).1

/-- C3: for every catalog state and user profile, the output of
`recommend_books` has pairwise-distinct catalog ids, contains no id from
the profile's wishlist or owned books, and has length at most 10. -/
theorem recommend_output_invariants (books_collection : List (String × BookDoc))
    (profile : Profile) :
    (((recommend_books books_collection profile).result.map Prod.fst).Nodup) ∧
    (∀ p ∈ (recommend_books books_collection profile).result,
      p.1 ∉ profile.wishlist ∧ p.1 ∉ profile.owned_books) ∧
    (recommend_books books_collection profile).result.length ≤ 10 := by
  unfold recommend_books
  by_cases hcats : all_categories books_collection profile = []
  · simp [hcats]
  · simp only [if_neg hcats]
    set filtered_ids :=
      (search_books_with_categories books_collection
        (all_categories books_collection profile)).filter (fun book_id =>
          ! profile.owned_books.contains book_id &&
          ! profile.wishlist.contains book_id) with hfid
    refine ⟨?_, ?_, ?_⟩
    · have hnd : filtered_ids.Nodup := by
        rw [hfid]
        unfold search_books_with_categories
        rw [if_neg hcats]
        exact List.Nodup.filter _ (List.nodup_dedup _)
      have hnd2 : ((get_book_details books_collection filtered_ids).map Prod.fst).Nodup := by
        rw [get_book_details_map_fst]
        exact List.Nodup.filter _ hnd
      rw [List.map_take]
      exact hnd2.sublist (List.take_sublist _ _)
    · intro p hp
      have hp2 := List.mem_of_mem_take hp
      have hid := get_book_details_mem_fst books_collection filtered_ids p hp2
      rw [hfid, List.mem_filter] at hid
      have hcond := hid.2
      rw [Bool.and_eq_true, Bool.not_eq_true', Bool.not_eq_true'] at hcond
      exact ⟨not_mem_of_contains_eq_false hcond.2,
        not_mem_of_contains_eq_false hcond.1⟩
    · exact List.length_take_le _ _

/-- Witness for C3 at a concrete input: a single-book catalog matching
the user's one preference category. -/
theorem recommend_output_invariants_witness :
    ("b1" : String) ∉ ([] : List String) ∧ ("b1" : String) ∉ ([] : List String) :=
  (recommend_output_invariants [("b1", { category := ["sci"] })]
    { preferences := ["sci"], wishlist := [], owned_books := [] }).2.1
    ("b1", { category := ["sci"] }) (by decide)

/-- C7: when the derived category union (wishlist categories ∪ stored
preferences ∪ owned-book categories) is empty, `recommend_books` returns
the empty list and issues no by-category catalog query during the call. -/
theorem empty_category_union_no_query (books_collection : List (String × BookDoc))
    (profile : Profile)
    (h : all_categories books_collection profile = []) :
    (recommend_books books_collection profile).result = [] ∧
    (recommend_books books_collection profile).category_queries = [] := by
  unfold recommend_books
  simp [h]

/-- Witness for C7 at a concrete input: a user with no preferences,
wishlist or owned books. -/
theorem empty_category_union_no_query_witness :
    (recommend_books [] { preferences := [], wishlist := [], owned_books := [] }).result
      = [] ∧
    (recommend_books []
      { preferences := [], wishlist := [], owned_books := [] }).category_queries = [] :=
  empty_category_union_no_query [] { preferences := [], wishlist := [], owned_books := [] }
    rfl

/-- Counterexample to C8 as stated: with an empty catalog and an empty
profile the computed recommendation list is empty, and `main_recommender`
performs no write at all (the `if recommendations:` guard skips the
`update` call), rather than persisting the empty list. -/
theorem main_recommender_skips_write_on_empty :
    (main_recommender [] { preferences := [], wishlist := [], owned_books := [] }).result
      = [] ∧
    (main_recommender [] { preferences := [], wishlist := [], owned_books := [] }).wrote
      = none :=
  ⟨rfl, rfl⟩

/-- C8 (amended): `main_recommender` returns exactly the computed
recommendation list, and writes it to the user profile's
`recommendations` field if and only if the list is non-empty; an empty
result is returned without any write. -/
theorem main_recommender_write_iff_nonempty (books_collection : List (String × BookDoc))
    (profile : Profile) :
    (main_recommender books_collection profile).result =
      (recommend_books books_collection profile).result ∧
    (main_recommender books_collection profile).wrote =
      (if (main_recommender books_collection profile).result = [] then none
        else some ((main_recommender books_collection profile).result)) := by
  unfold main_recommender
  by_cases h : (recommend_books books_collection profile).result = [] <;> simp [h]

end Bookini
